import Mathlib

/-!
Verification of the frame-conversion core in `src/OpenCVFrameHelper.cpp`
(`Microsoft::KinectBridge::OpenCVFrameHelper`): the color and depth buffer
decoders (`GetColorData`, `GetDepthData`), the depth colorizer with sparse
optical-flow tracking (`GetDepthDataAsArgb`), and the size validator
(`VerifySize`), as a shallow embedding in Lean.

Modelling conventions:
* `HRESULT` is an `Int` (Windows `HRESULT` is a signed 32-bit integer;
  `SUCCEEDED(hr)` is `0 ≤ hr`).  `S_OK = 0`, `E_INVALIDARG = 0x80070057`
  and `E_NUI_FRAME_NO_DATA = 0x83010001` as signed values.
* Raw frame buffers (`BYTE*`) are total functions `Nat → Nat` from byte
  offset to byte value; a `USHORT` read at element index `i`
  (`reinterpret_cast<USHORT*>` on a little-endian machine) combines the
  bytes at offsets `2*i` and `2*i+1`.
* `cv::Mat` is a structure carrying its dimensions and a total pixel
  function; writing the in-bounds region updates the pixel function there
  and leaves every other coordinate at the caller's previous value, which
  makes "no element of the output matrix is written" expressible.
* The external OpenCV algorithms (`cv::goodFeaturesToTrack`,
  `cv::calcOpticalFlowPyrLK`) and the external scalar mapping
  `DepthShortToRgb` are parameters of the embedding (an `Externals`
  record); a thrown `cv::Exception` is an `Except.error` result.
* The function-local `static` variables of `GetDepthDataAsArgb`
  (`prevImage`, `prevFeatures`, `currentFeatures`) form an explicit
  `TrackingState` threaded through calls.
-/

/-- `S_OK` success code (source: returned on every successful path). -/
def S_OK : Int := 0

/-- `E_INVALIDARG` (`0x80070057`) as a signed 32-bit value. -/
def E_INVALIDARG : Int := -2147024809

/-- `E_NUI_FRAME_NO_DATA` (`0x83010001`) as a signed 32-bit value. -/
def E_NUI_FRAME_NO_DATA : Int := -2097086463

/-- `cv::Vec4b`: a 4-channel 8-bit pixel.  Channel values are `Nat`s that
are below 256 for every pixel the embedded code constructs. -/
structure Vec4b where
  v0 : Nat
  v1 : Nat
  v2 : Nat
  v3 : Nat
deriving DecidableEq, Repr

/-- `cv::Mat`: dimensions plus a total pixel map (row `y`, column `x`). -/
structure Mat (α : Type) where
  rows : Nat
  cols : Nat
  px : Nat → Nat → α

/-- `cv::Point`: integer 2-D point. -/
structure CvPoint where
  x : Int
  y : Int
deriving DecidableEq, Repr

/-- `NUI_IMAGE_RESOLUTION`: the Kinect resolution enumeration. -/
inductive NuiImageResolution where
  | res80x60
  | res320x240
  | res640x480
  | res1280x960
deriving DecidableEq, Repr

/-- Modelled from the spec: `NuiImageResolutionToSize`, the external
resolution-to-dimension lookup (spec sections 1 and 6: "resolution descriptor
(enum → width, height)"); returns `(width, height)` for each canonical
Kinect resolution. -/
def NuiImageResolutionToSize : NuiImageResolution → Nat × Nat
  | .res80x60 => (80, 60)
  | .res320x240 => (320, 240)
  | .res640x480 => (640, 480)
  | .res1280x960 => (1280, 960)

/-- The `FrameHelper` member state read by the embedded methods: raw buffer
views, their row pitches and the configured resolutions. -/
structure FrameHelperState where
  pColorBuffer : Nat → Nat
  colorBufferPitch : Nat
  pDepthBuffer : Nat → Nat
  depthBufferPitch : Nat
  colorResolution : NuiImageResolution
  depthResolution : NuiImageResolution

/-- Little-endian `USHORT` read at element index `i` of a byte buffer
(`reinterpret_cast<USHORT*>(buf)[i]`). -/
def readUShort (buf : Nat → Nat) (i : Nat) : Nat :=
  buf (2 * i) + 256 * buf (2 * i + 1)

/-- `OpenCVFrameHelper::GetColorData` (src/OpenCVFrameHelper.cpp:26-53):
returns `E_NUI_FRAME_NO_DATA` when `m_colorBufferPitch == 0`; otherwise
writes, for every `y < colorHeight` and `x < colorWidth`, the 4 bytes at
source offsets `y * m_colorBufferPitch + x * 4 + c` into the output pixel. -/
def GetColorData (s : FrameHelperState) (pImage : Mat Vec4b) : Int × Mat Vec4b :=
  if s.colorBufferPitch = 0 then
    (E_NUI_FRAME_NO_DATA, pImage)
  else
    let wh := NuiImageResolutionToSize s.colorResolution
    (S_OK,
      { pImage with px := fun y x =>
          if y < wh.2 ∧ x < wh.1 then
            ⟨s.pColorBuffer (y * s.colorBufferPitch + x * 4 + 0),
             s.pColorBuffer (y * s.colorBufferPitch + x * 4 + 1),
             s.pColorBuffer (y * s.colorBufferPitch + x * 4 + 2),
             s.pColorBuffer (y * s.colorBufferPitch + x * 4 + 3)⟩
          else pImage.px y x })

/-- `OpenCVFrameHelper::GetDepthData` (src/OpenCVFrameHelper.cpp:61-87).
The source tests `m_colorBufferPitch == 0` (line 64) — the color buffer's
pitch, not the depth buffer's — and the copy loop indexes the reinterpreted
`USHORT` buffer at `y * depthWidth + x` (line 82), ignoring
`m_depthBufferPitch` entirely.  Both are embedded exactly as written. -/
def GetDepthData (s : FrameHelperState) (pImage : Mat Nat) : Int × Mat Nat :=
  if s.colorBufferPitch = 0 then
    (E_NUI_FRAME_NO_DATA, pImage)
  else
    let wh := NuiImageResolutionToSize s.depthResolution
    (S_OK,
      { pImage with px := fun y x =>
          if y < wh.2 ∧ x < wh.1 then
            readUShort s.pDepthBuffer (y * wh.1 + x)
          else pImage.px y x })

/-- The external algorithms called by `GetDepthDataAsArgb`, specified only
at their interface boundary (spec sections 1 and 6): the pure scalar
mapping `DepthShortToRgb` (16-bit sample → three 8-bit channels), corner
detection `cv::goodFeaturesToTrack` (image, maxCorners, qualityLevel,
minDistance → point list) and pyramidal optical flow
`cv::calcOpticalFlowPyrLK` (previous image, next image, previous points →
points, status, error).  A thrown `cv::Exception` is an `Except.error`. -/
structure Externals where
  DepthShortToRgb : Nat → Nat × Nat × Nat
  goodFeaturesToTrack : Mat Nat → Nat → Rat → Nat → Except String (List CvPoint)
  calcOpticalFlowPyrLK : Mat Nat → Mat Nat → List CvPoint →
    Except String (List CvPoint × List Nat × List Rat)

/-- The function-local `static` state of `GetDepthDataAsArgb`
(src/OpenCVFrameHelper.cpp:97-100): `static Mat prevImage`,
`static std::vector<cv::Point> prevFeatures`, and
`static std::vector<cv::Point> currentFeatures(20)`. -/
structure TrackingState where
  prevImage : Mat Nat
  prevFeatures : List CvPoint
  currentFeatures : List CvPoint

/-- The static variables' values before the first call: `prevImage` is a
default-constructed (empty) `Mat`, `prevFeatures` is empty, and
`currentFeatures(20)` holds 20 default points. -/
def TrackingState.initial : TrackingState :=
  ⟨⟨0, 0, fun _ _ => 0⟩, [], List.replicate 20 ⟨0, 0⟩⟩

/-- `cv::saturate_cast<uchar>` on a non-negative sample, as performed per
pixel by `testImage.convertTo(testImage, CV_8U)` (line 112). -/
def saturateCast8 (v : Nat) : Nat := min v 255

/-- `Mat testImage(depthImage); testImage.convertTo(testImage, CV_8U)`
(lines 111-112): the depth image cast to 8-bit intensity. -/
def mkTestImage (depthImage : Mat Nat) : Mat Nat :=
  { depthImage with px := fun y x => saturateCast8 (depthImage.px y x) }

/-- The feature block of `GetDepthDataAsArgb` (lines 113-131): when
`prevFeatures.size() <= 0`, run
`cv::goodFeaturesToTrack(testImage, currentFeatures, 20, 0.05, 5)`;
otherwise run `cv::calcOpticalFlowPyrLK(prevImage, testImage, prevFeatures,
currentFeatures, status, err)`.  Either call may throw; the exception is
caught and logged (lines 117-119, 128-130) and `currentFeatures` keeps its
previous (static) value.  Returns the value `currentFeatures` holds after
the block. -/
def computeFeatures (ext : Externals) (ts : TrackingState) (testImage : Mat Nat) :
    List CvPoint :=
  if ts.prevFeatures.length = 0 then
    match ext.goodFeaturesToTrack testImage 20 (1 / 20 : Rat) 5 with
    | .ok fs => fs
    | .error _ => ts.currentFeatures
  else
    match ext.calcOpticalFlowPyrLK ts.prevImage testImage ts.prevFeatures with
    | .ok r => r.1
    | .error _ => ts.currentFeatures

/-- The colorization loop of `GetDepthDataAsArgb` (lines 132-154): for each
in-bounds pixel, a non-sentinel sample (`raw_depth != 65535`) is mapped via
`DepthShortToRgb` into `Vec4b(red, green, blue, 1)`, and a sentinel sample
is assigned `0`, i.e. the all-zero `Vec4b`. -/
def colorizeDepth (ext : Externals) (depthImage : Mat Nat) (w h : Nat)
    (pImage : Mat Vec4b) : Mat Vec4b :=
  { pImage with px := fun y x =>
      if y < h ∧ x < w then
        let raw := depthImage.px y x
        if raw ≠ 65535 then
          let rgb := ext.DepthShortToRgb raw
          ⟨rgb.1, rgb.2.1, rgb.2.2, 1⟩
        else ⟨0, 0, 0, 0⟩
      else pImage.px y x }

/-- `OpenCVFrameHelper::GetDepthDataAsArgb` (src/OpenCVFrameHelper.cpp:95-159):
decode the depth frame into a freshly created matrix; on failure
(`!SUCCEEDED(hr)`, i.e. `hr < 0`) return `hr` immediately, touching neither
the output matrix nor the static state.  Otherwise build the 8-bit
`testImage`, run the feature block, colorize into the caller's matrix, then
unconditionally persist `prevImage = testImage.clone()` and
`prevFeatures = currentFeatures` (lines 156-157) and return `S_OK`.
Result: `(HRESULT, output matrix, static state after the call)`. -/
def GetDepthDataAsArgb (ext : Externals) (s : FrameHelperState)
    (ts : TrackingState) (pImage : Mat Vec4b) : Int × Mat Vec4b × TrackingState :=
  let wh := NuiImageResolutionToSize s.depthResolution
  let depthImage0 : Mat Nat := ⟨wh.2, wh.1, fun _ _ => 0⟩
  let r := GetDepthData s depthImage0
  if r.1 < 0 then
    (r.1, pImage, ts)
  else
    let depthImage := r.2
    let testImage := mkTestImage depthImage
    let currentFeatures := computeFeatures ext ts testImage
    let outImage := colorizeDepth ext depthImage wh.1 wh.2 pImage
    (S_OK, outImage, ⟨testImage, currentFeatures, currentFeatures⟩)

/-- `OpenCVFrameHelper::VerifySize` (src/OpenCVFrameHelper.cpp:167-179):
`E_INVALIDARG` when the matrix size differs from the resolution's
`(width, height)`, else `S_OK`.  The method is `const` and writes nothing;
the embedding is a pure function of its two inputs. -/
def VerifySize {α : Type} (pImage : Mat α) (resolution : NuiImageResolution) : Int :=
  let wh := NuiImageResolutionToSize resolution
  if pImage.rows ≠ wh.2 ∨ pImage.cols ≠ wh.1 then E_INVALIDARG else S_OK

/-- The fresh matrix `GetDepthDataAsArgb` decodes into
(`depthImage.create(depthHeight, depthWidth, DEPTH_TYPE)` followed by
`GetDepthData(&depthImage)`, lines 105-107). -/
def decodedDepth (s : FrameHelperState) : Mat Nat :=
  (GetDepthData s ⟨(NuiImageResolutionToSize s.depthResolution).2,
                   (NuiImageResolutionToSize s.depthResolution).1,
                   fun _ _ => 0⟩).2

/-- Modelled from the spec (comparison definition for claim C2 only, not
part of the embedded code): the pitch-based source read the claim
describes, in which the row pitch is "the distance between consecutive
source rows": the 16-bit element for output position `(y, x)` is taken
from bytes `y * pitch + 2 * x` and `y * pitch + 2 * x + 1`. -/
def specPitchedDepthRead (buf : Nat → Nat) (pitch y x : Nat) : Nat :=
  buf (y * pitch + 2 * x) + 256 * buf (y * pitch + 2 * x + 1)

/-- Modelled from the spec (comparison definition for claim C6 only, not
part of the embedded code): the anomaly count — the number of in-bounds
output pixels "whose combined RGB channel sum is below a fixed brightness
threshold (original value 127×3)". -/
def specAnomalyCount (img : Mat Vec4b) (w h : Nat) : Nat :=
  ((List.range h).map (fun y =>
    (List.range w).countP (fun x =>
      (img.px y x).v0 + (img.px y x).v1 + (img.px y x).v2 < 127 * 3))).sum

/- Concrete fixtures used by closed counterexamples and witnesses. -/

/-- A depth byte buffer whose every little-endian 16-bit sample is 100. -/
def bufConst100 : Nat → Nat := fun i => if i % 2 = 0 then 100 else 0

/-- A well-formed helper state: nonzero pitches, 80x60 resolutions,
identity-like color bytes and constant-100 depth samples. -/
def sGood : FrameHelperState :=
  ⟨fun i => i % 256, 4, bufConst100, 160, .res80x60, .res80x60⟩

/-- Helper state with the depth buffer's own pitch zero but the color
buffer's pitch nonzero. -/
def sDepthPitch0 : FrameHelperState :=
  ⟨fun i => i % 256, 4, bufConst100, 0, .res80x60, .res80x60⟩

/-- Helper state with the color buffer's pitch zero but the depth buffer's
own pitch nonzero. -/
def sColorPitch0 : FrameHelperState :=
  ⟨fun i => i % 256, 0, bufConst100, 160, .res80x60, .res80x60⟩

/-- Helper state whose depth buffer has row pitch 162 bytes, larger than
width × pixel size = 80 × 2 = 160, with offset-revealing byte values. -/
def sPitch162 : FrameHelperState :=
  ⟨fun i => i % 256, 4, fun i => i % 251, 162, .res80x60, .res80x60⟩

/-- A pre-filled 16-bit destination matrix (all samples 9). -/
def m16blank : Mat Nat := ⟨60, 80, fun _ _ => 9⟩

/-- A pre-filled 4-channel destination matrix (all channels 9). -/
def m4blank : Mat Vec4b := ⟨60, 80, fun _ _ => ⟨9, 9, 9, 9⟩⟩

/-- Externals mapping every sample to black (0,0,0), with total detection
and flow algorithms. -/
def extZero : Externals :=
  ⟨fun _ => (0, 0, 0),
   fun _ _ _ _ => .ok [⟨1, 1⟩],
   fun _ _ _ => .ok ([⟨2, 2⟩], [1], [0])⟩

/-- Externals mapping sample `d` to `(min d 255, 0, 0)`, so the red channel
reveals the colorizer's input sample. -/
def extRed : Externals :=
  ⟨fun d => (min d 255, 0, 0),
   fun _ _ _ _ => .ok [⟨1, 1⟩],
   fun _ _ _ => .ok ([⟨2, 2⟩], [1], [0])⟩

/-- Externals whose optical-flow computation always throws. -/
def extFlowFail : Externals :=
  ⟨fun d => (min d 255, 0, 0),
   fun _ _ _ _ => .ok [⟨1, 1⟩],
   fun _ _ _ => .error "flow"⟩

/-- A tracking state with a nonempty previous feature sequence and a
recognizable previous frame (all pixels 7). -/
def tsSeeded : TrackingState :=
  ⟨⟨60, 80, fun _ _ => 7⟩, [⟨3, 4⟩], [⟨5, 6⟩]⟩

/-- The static state after `n` successive calls to `GetDepthDataAsArgb`
with externals `extRed`, helper state `sGood` and destination `m4blank`,
starting from the initial static state. -/
def callN : Nat → TrackingState
  | 0 => TrackingState.initial
  | n + 1 => (GetDepthDataAsArgb extRed sGood (callN n) m4blank).2.2

/- Helper lemmas shared by several claims. -/

/-- On the successful path (`m_colorBufferPitch ≠ 0`), `GetDepthDataAsArgb`
returns `S_OK`, the colorization of the decoded raw depth matrix, and the
persisted static state. -/
theorem GetDepthDataAsArgb_ok (ext : Externals) (s : FrameHelperState)
    (ts : TrackingState) (pImage : Mat Vec4b) (hp : s.colorBufferPitch ≠ 0) :
    GetDepthDataAsArgb ext s ts pImage =
      (S_OK,
       colorizeDepth ext (decodedDepth s)
         (NuiImageResolutionToSize s.depthResolution).1
         (NuiImageResolutionToSize s.depthResolution).2 pImage,
       ⟨mkTestImage (decodedDepth s),
        computeFeatures ext ts (mkTestImage (decodedDepth s)),
        computeFeatures ext ts (mkTestImage (decodedDepth s))⟩) := by
  simp only [GetDepthDataAsArgb, decodedDepth, GetDepthData, if_neg hp, S_OK]
  norm_num

/-- In-bounds pixels of the decoded depth matrix are the `USHORT` reads at
element index `y * width + x`. -/
theorem decodedDepth_px (s : FrameHelperState) (y x : Nat)
    (hp : s.colorBufferPitch ≠ 0)
    (hy : y < (NuiImageResolutionToSize s.depthResolution).2)
    (hx : x < (NuiImageResolutionToSize s.depthResolution).1) :
    (decodedDepth s).px y x =
      readUShort s.pDepthBuffer (y * (NuiImageResolutionToSize s.depthResolution).1 + x) := by
  simp only [decodedDepth, GetDepthData, if_neg hp]
  simp [hy, hx]

/-- Every 16-bit sample of `bufConst100` is 100. -/
theorem readUShort_bufConst100 (i : Nat) : readUShort bufConst100 i = 100 := by
  have h1 : (2 * i) % 2 = 0 := by omega
  have h2 : (2 * i + 1) % 2 = 1 := by omega
  simp [readUShort, bufConst100, h1, h2]

/-- Claim C1: both decoders return `NoData` exactly when their own source
row pitch is zero, writing nothing; in particular the depth decoder is
decided by the depth buffer's pitch.  The code diverges: `GetDepthData`
tests `m_colorBufferPitch` (line 64), so with the depth pitch 0 and the
color pitch 4 it returns `S_OK` and writes the output, while with the color
pitch 0 and the depth pitch 160 it returns `NoData`.  The color half
behaves as claimed. -/
theorem C1_depth_pitch_divergence :
    (GetColorData sColorPitch0 m4blank).1 = E_NUI_FRAME_NO_DATA ∧
    (GetColorData sColorPitch0 m4blank).2 = m4blank ∧
    sDepthPitch0.depthBufferPitch = 0 ∧
    (GetDepthData sDepthPitch0 m16blank).1 = S_OK ∧
    (GetDepthData sDepthPitch0 m16blank).2.px 0 0 ≠ m16blank.px 0 0 ∧
    sColorPitch0.depthBufferPitch ≠ 0 ∧
    (GetDepthData sColorPitch0 m16blank).1 = E_NUI_FRAME_NO_DATA := by
  refine ⟨by decide, rfl, by decide, by decide, by decide, by decide, by decide⟩

/-- Claim C2 counterexample: the depth decoder does not use the row pitch
as the distance between consecutive source rows.  With depth pitch 162
(exceeding width × pixel size = 160), the element written at output
position (1, 0) differs from the pitch-based read the claim describes. -/
theorem C2_counterexample :
    (GetDepthData sPitch162 m16blank).1 = S_OK ∧
    sPitch162.depthBufferPitch = 162 ∧
    80 * 2 < sPitch162.depthBufferPitch ∧
    (GetDepthData sPitch162 m16blank).2.px 1 0 ≠
      specPitchedDepthRead sPitch162.pDepthBuffer sPitch162.depthBufferPitch 1 0 := by
  refine ⟨by decide, by decide, by decide, by decide⟩

/-- Claim C2 (amended): the color decoder reads the 4 channel bytes of
output position (y, x) at source byte offsets
`y * pitch + x * 4 + c`, using its row pitch as the distance between
consecutive source rows; the depth decoder instead reads the 16-bit
element at element index `y * width + x` (byte offset `2 * (y * width + x)`),
ignoring its row pitch, which agrees with the pitch-based read exactly when
the depth pitch equals `2 * width`. -/
theorem C2_element_addressing (s : FrameHelperState) (m4 : Mat Vec4b)
    (m16 : Mat Nat) (yc xc yd xd : Nat)
    (hp : s.colorBufferPitch ≠ 0)
    (hyc : yc < (NuiImageResolutionToSize s.colorResolution).2)
    (hxc : xc < (NuiImageResolutionToSize s.colorResolution).1)
    (hyd : yd < (NuiImageResolutionToSize s.depthResolution).2)
    (hxd : xd < (NuiImageResolutionToSize s.depthResolution).1) :
    (GetColorData s m4).2.px yc xc =
      ⟨s.pColorBuffer (yc * s.colorBufferPitch + xc * 4 + 0),
       s.pColorBuffer (yc * s.colorBufferPitch + xc * 4 + 1),
       s.pColorBuffer (yc * s.colorBufferPitch + xc * 4 + 2),
       s.pColorBuffer (yc * s.colorBufferPitch + xc * 4 + 3)⟩ ∧
    (GetDepthData s m16).2.px yd xd =
      readUShort s.pDepthBuffer
        (yd * (NuiImageResolutionToSize s.depthResolution).1 + xd) ∧
    (s.depthBufferPitch = 2 * (NuiImageResolutionToSize s.depthResolution).1 →
      (GetDepthData s m16).2.px yd xd =
        specPitchedDepthRead s.pDepthBuffer s.depthBufferPitch yd xd) := by
  refine ⟨?_, ?_, ?_⟩
  · simp only [GetColorData, if_neg hp]
    simp [hyc, hxc]
  · simp only [GetDepthData, if_neg hp]
    simp [hyd, hxd]
  · intro hpitch
    simp only [GetDepthData, if_neg hp]
    simp only [specPitchedDepthRead, readUShort, hpitch]
    simp [hyd, hxd]
    ring_nf

/-- Witness for C2 (amended) at a concrete state and position. -/
theorem C2_element_addressing_witness :
    (GetColorData sGood m4blank).2.px 1 2 =
      ⟨sGood.pColorBuffer (1 * sGood.colorBufferPitch + 2 * 4 + 0),
       sGood.pColorBuffer (1 * sGood.colorBufferPitch + 2 * 4 + 1),
       sGood.pColorBuffer (1 * sGood.colorBufferPitch + 2 * 4 + 2),
       sGood.pColorBuffer (1 * sGood.colorBufferPitch + 2 * 4 + 3)⟩ ∧
    (GetDepthData sGood m16blank).2.px 1 2 =
      readUShort sGood.pDepthBuffer
        (1 * (NuiImageResolutionToSize sGood.depthResolution).1 + 2) ∧
    (sGood.depthBufferPitch = 2 * (NuiImageResolutionToSize sGood.depthResolution).1 →
      (GetDepthData sGood m16blank).2.px 1 2 =
        specPitchedDepthRead sGood.pDepthBuffer sGood.depthBufferPitch 1 2) :=
  C2_element_addressing sGood m4blank m16blank 1 2 1 2
    (by decide) (by decide) (by decide) (by decide) (by decide)

/-- Claim C3: in the colorization loop of `GetDepthDataAsArgb`, every
in-bounds pixel whose depth sample equals the sentinel 65535 is written as
the all-zero (fully transparent) pixel, and every pixel whose sample
differs from 65535 is written with the three channels produced by the
external `DepthShortToRgb` mapping and the alpha channel pinned to 1. -/
theorem C3_sentinel_and_alpha (ext : Externals) (s : FrameHelperState)
    (ts : TrackingState) (pImage : Mat Vec4b) (y x : Nat)
    (hp : s.colorBufferPitch ≠ 0)
    (hy : y < (NuiImageResolutionToSize s.depthResolution).2)
    (hx : x < (NuiImageResolutionToSize s.depthResolution).1) :
    ((decodedDepth s).px y x = 65535 →
      (GetDepthDataAsArgb ext s ts pImage).2.1.px y x = ⟨0, 0, 0, 0⟩) ∧
    ((decodedDepth s).px y x ≠ 65535 →
      (GetDepthDataAsArgb ext s ts pImage).2.1.px y x =
        ⟨(ext.DepthShortToRgb ((decodedDepth s).px y x)).1,
         (ext.DepthShortToRgb ((decodedDepth s).px y x)).2.1,
         (ext.DepthShortToRgb ((decodedDepth s).px y x)).2.2, 1⟩) := by
  rw [GetDepthDataAsArgb_ok ext s ts pImage hp]
  constructor
  · intro hsent
    simp [colorizeDepth, hy, hx, hsent]
  · intro hval
    simp [colorizeDepth, hy, hx, hval]

/-- Witness for C3 at a concrete state and position: with `sGood` every
sample is 100 (not the sentinel), so the output pixel carries the external
mapping's channels with alpha 1. -/
theorem C3_sentinel_and_alpha_witness :
    ((decodedDepth sGood).px 0 0 = 65535 →
      (GetDepthDataAsArgb extZero sGood TrackingState.initial m4blank).2.1.px 0 0 =
        ⟨0, 0, 0, 0⟩) ∧
    ((decodedDepth sGood).px 0 0 ≠ 65535 →
      (GetDepthDataAsArgb extZero sGood TrackingState.initial m4blank).2.1.px 0 0 =
        ⟨(extZero.DepthShortToRgb ((decodedDepth sGood).px 0 0)).1,
         (extZero.DepthShortToRgb ((decodedDepth sGood).px 0 0)).2.1,
         (extZero.DepthShortToRgb ((decodedDepth sGood).px 0 0)).2.2, 1⟩) :=
  C3_sentinel_and_alpha extZero sGood TrackingState.initial m4blank 0 0
    (by decide) (by decide) (by decide)

/-- Claim C4 counterexample: when the optical-flow computation throws, the
call does return its normal success code, but the retained tracking state
is not left unchanged: lines 156-157 still run, so the previous-frame
snapshot becomes the current 8-bit frame (pixel (0,0): 100, previously 7)
and the previous feature sequence becomes the `currentFeatures` buffer's
value `[(5,6)]`, previously `[(3,4)]`. -/
theorem C4_counterexample :
    extFlowFail.calcOpticalFlowPyrLK tsSeeded.prevImage
      (mkTestImage (decodedDepth sGood)) tsSeeded.prevFeatures = .error "flow" ∧
    (GetDepthDataAsArgb extFlowFail sGood tsSeeded m4blank).1 = S_OK ∧
    (GetDepthDataAsArgb extFlowFail sGood tsSeeded m4blank).2.2.prevImage.px 0 0 ≠
      tsSeeded.prevImage.px 0 0 ∧
    (GetDepthDataAsArgb extFlowFail sGood tsSeeded m4blank).2.2.prevFeatures ≠
      tsSeeded.prevFeatures := by
  refine ⟨rfl, by decide, by decide, by decide⟩

/-- Claim C4 (amended): when the feature-detection or optical-flow
computation of the running branch throws, the exception is caught (and
logged) and the call still returns `S_OK`; the feature buffers keep the
`currentFeatures` value from before the call, but the previous-frame
snapshot is nonetheless unconditionally replaced by the current 8-bit
frame. -/
theorem C4_exception_contained (ext : Externals) (s : FrameHelperState)
    (ts : TrackingState) (pImage : Mat Vec4b)
    (hp : s.colorBufferPitch ≠ 0)
    (hfail :
      (ts.prevFeatures.length = 0 ∧
        ∃ e, ext.goodFeaturesToTrack (mkTestImage (decodedDepth s))
          20 (1 / 20 : Rat) 5 = .error e) ∨
      (ts.prevFeatures.length ≠ 0 ∧
        ∃ e, ext.calcOpticalFlowPyrLK ts.prevImage (mkTestImage (decodedDepth s))
          ts.prevFeatures = .error e)) :
    (GetDepthDataAsArgb ext s ts pImage).1 = S_OK ∧
    (GetDepthDataAsArgb ext s ts pImage).2.2.prevFeatures = ts.currentFeatures ∧
    (GetDepthDataAsArgb ext s ts pImage).2.2.currentFeatures = ts.currentFeatures ∧
    (GetDepthDataAsArgb ext s ts pImage).2.2.prevImage =
      mkTestImage (decodedDepth s) := by
  rw [GetDepthDataAsArgb_ok ext s ts pImage hp]
  rcases hfail with ⟨hlen, e, he⟩ | ⟨hlen, e, he⟩
  · simp only [computeFeatures]
    rw [if_pos hlen, he]
    simp
  · simp only [computeFeatures]
    rw [if_neg hlen, he]
    simp

/-- Witness for C4 (amended): concrete failing-flow call. -/
theorem C4_exception_contained_witness :
    (GetDepthDataAsArgb extFlowFail sGood tsSeeded m4blank).1 = S_OK ∧
    (GetDepthDataAsArgb extFlowFail sGood tsSeeded m4blank).2.2.prevFeatures =
      tsSeeded.currentFeatures ∧
    (GetDepthDataAsArgb extFlowFail sGood tsSeeded m4blank).2.2.currentFeatures =
      tsSeeded.currentFeatures ∧
    (GetDepthDataAsArgb extFlowFail sGood tsSeeded m4blank).2.2.prevImage =
      mkTestImage (decodedDepth sGood) :=
  C4_exception_contained extFlowFail sGood tsSeeded m4blank
    (by decide) (Or.inr ⟨by decide, "flow", rfl⟩)

/-- Claim C5: every call to `GetDepthDataAsArgb` that does not return early
with a decode error unconditionally persists the current 8-bit frame as the
previous-frame snapshot and the resulting feature sequence (the value the
feature block leaves in `currentFeatures`) as the previous feature
sequence, whatever the externals, prior state and destination matrix. -/
theorem C5_state_persisted (ext : Externals) (s : FrameHelperState)
    (ts : TrackingState) (pImage : Mat Vec4b)
    (hp : s.colorBufferPitch ≠ 0) :
    (GetDepthDataAsArgb ext s ts pImage).2.2.prevImage =
      mkTestImage (decodedDepth s) ∧
    (GetDepthDataAsArgb ext s ts pImage).2.2.prevFeatures =
      computeFeatures ext ts (mkTestImage (decodedDepth s)) := by
  rw [GetDepthDataAsArgb_ok ext s ts pImage hp]
  exact ⟨rfl, rfl⟩

/-- Witness for C5 at a concrete call. -/
theorem C5_state_persisted_witness :
    (GetDepthDataAsArgb extZero sGood tsSeeded m4blank).2.2.prevImage =
      mkTestImage (decodedDepth sGood) ∧
    (GetDepthDataAsArgb extZero sGood tsSeeded m4blank).2.2.prevFeatures =
      computeFeatures extZero tsSeeded (mkTestImage (decodedDepth sGood)) :=
  C5_state_persisted extZero sGood tsSeeded m4blank (by decide)

/-- With `extZero` and `sGood`, every in-bounds output pixel of the
colorized image is `⟨0, 0, 0, 1⟩` (dark: channel sum 0). -/
theorem allDarkPx_sGood_extZero (y x : Nat) (hy : y < 60) (hx : x < 80) :
    (GetDepthDataAsArgb extZero sGood TrackingState.initial m4blank).2.1.px y x =
      ⟨0, 0, 0, 1⟩ := by
  rw [GetDepthDataAsArgb_ok extZero sGood TrackingState.initial m4blank (by decide)]
  have hraw : (decodedDepth sGood).px y x = 100 := by
    rw [decodedDepth_px sGood y x (by decide) hy hx]
    exact readUShort_bufConst100 _
  have hy2 : y < (NuiImageResolutionToSize sGood.depthResolution).2 := hy
  have hx2 : x < (NuiImageResolutionToSize sGood.depthResolution).1 := hx
  simp [colorizeDepth, hy2, hx2, hraw, extZero]

/-- Claim C6 counterexample: `GetDepthDataAsArgb` does not return the count
of output pixels whose combined RGB channel sum is below 127×3.  At a
concrete call every one of the 80×60 output pixels is below the threshold
(count 4800), yet the returned result value is the plain success code
`S_OK = 0`. -/
theorem C6_counterexample :
    (GetDepthDataAsArgb extZero sGood TrackingState.initial m4blank).1 = S_OK ∧
    specAnomalyCount
      (GetDepthDataAsArgb extZero sGood TrackingState.initial m4blank).2.1 80 60 = 4800 ∧
    (GetDepthDataAsArgb extZero sGood TrackingState.initial m4blank).1 ≠
      (specAnomalyCount
        (GetDepthDataAsArgb extZero sGood TrackingState.initial m4blank).2.1 80 60 : Int) := by
  have hcount : specAnomalyCount
      (GetDepthDataAsArgb extZero sGood TrackingState.initial m4blank).2.1 80 60 = 4800 := by
    unfold specAnomalyCount
    have hmap : (List.range 60).map (fun y =>
        (List.range 80).countP (fun x =>
          ((GetDepthDataAsArgb extZero sGood TrackingState.initial m4blank).2.1.px y x).v0 +
          ((GetDepthDataAsArgb extZero sGood TrackingState.initial m4blank).2.1.px y x).v1 +
          ((GetDepthDataAsArgb extZero sGood TrackingState.initial m4blank).2.1.px y x).v2 <
            127 * 3)) = (List.range 60).map (fun _ => 80) := by
      apply List.map_congr_left
      intro y hy
      rw [List.mem_range] at hy
      have hall : ∀ x ∈ List.range 80,
          (decide (((GetDepthDataAsArgb extZero sGood TrackingState.initial m4blank).2.1.px y x).v0 +
            ((GetDepthDataAsArgb extZero sGood TrackingState.initial m4blank).2.1.px y x).v1 +
            ((GetDepthDataAsArgb extZero sGood TrackingState.initial m4blank).2.1.px y x).v2 <
              127 * 3) = true) := by
        intro x hx
        rw [List.mem_range] at hx
        rw [allDarkPx_sGood_extZero y x hy hx]
        decide
      calc (List.range 80).countP _ = (List.range 80).length :=
            List.countP_eq_length.mpr hall
        _ = 80 := List.length_range 80
    rw [hmap]
    decide
  refine ⟨by rw [GetDepthDataAsArgb_ok extZero sGood TrackingState.initial m4blank (by decide)],
    hcount, ?_⟩
  rw [hcount, GetDepthDataAsArgb_ok extZero sGood TrackingState.initial m4blank (by decide)]
  decide

/-- Claim C6 (amended): on every call that passes the depth decode,
`GetDepthDataAsArgb` returns the plain success code `S_OK`; no
brightness-threshold pixel count is computed or returned. -/
theorem C6_returns_plain_success (ext : Externals) (s : FrameHelperState)
    (ts : TrackingState) (pImage : Mat Vec4b)
    (hp : s.colorBufferPitch ≠ 0) :
    (GetDepthDataAsArgb ext s ts pImage).1 = S_OK := by
  rw [GetDepthDataAsArgb_ok ext s ts pImage hp]

/-- Witness for C6 (amended) at a concrete call. -/
theorem C6_returns_plain_success_witness :
    (GetDepthDataAsArgb extRed sGood tsSeeded m4blank).1 = S_OK :=
  C6_returns_plain_success extRed sGood tsSeeded m4blank (by decide)

/-- Claim C7 counterexample: after four successful warm-up calls with the
identical constant-100 frame (where every delta of a period-2/period-4
differencing scheme would be the zero matrix, making the claimed combined
delta 0 at every pixel), the fifth call still colorizes the raw sample 100:
the output pixel is `⟨100, 0, 0, 1⟩`, not the `⟨0, 0, 0, 1⟩` a
combined-delta input would produce under `extRed`. -/
theorem C7_counterexample :
    (GetDepthDataAsArgb extRed sGood (callN 0) m4blank).1 = S_OK ∧
    (GetDepthDataAsArgb extRed sGood (callN 4) m4blank).1 = S_OK ∧
    (GetDepthDataAsArgb extRed sGood (callN 4) m4blank).2.1.px 0 0 = ⟨100, 0, 0, 1⟩ ∧
    (GetDepthDataAsArgb extRed sGood (callN 4) m4blank).2.1.px 0 0 ≠ ⟨0, 0, 0, 1⟩ := by
  refine ⟨by decide, by decide, by decide, by decide⟩

/-- Claim C7 (amended): `GetDepthDataAsArgb` maintains no frame counter and
no delta buffers; its cross-call state is exactly the optical-flow state
`(prevImage, prevFeatures, currentFeatures)`, the colorizer consumes the
decoded raw depth matrix directly on every call, and the output image is
independent of the retained cross-call state. -/
theorem C7_no_delta_tracking (ext : Externals) (s : FrameHelperState)
    (ts ts2 : TrackingState) (pImage : Mat Vec4b)
    (hp : s.colorBufferPitch ≠ 0) :
    (GetDepthDataAsArgb ext s ts pImage).2.1 =
      colorizeDepth ext (decodedDepth s)
        (NuiImageResolutionToSize s.depthResolution).1
        (NuiImageResolutionToSize s.depthResolution).2 pImage ∧
    (GetDepthDataAsArgb ext s ts pImage).2.1 =
      (GetDepthDataAsArgb ext s ts2 pImage).2.1 := by
  rw [GetDepthDataAsArgb_ok ext s ts pImage hp,
    GetDepthDataAsArgb_ok ext s ts2 pImage hp]
  exact ⟨rfl, rfl⟩

/-- Witness for C7 (amended) at a concrete call with two distinct retained
states. -/
theorem C7_no_delta_tracking_witness :
    (GetDepthDataAsArgb extRed sGood tsSeeded m4blank).2.1 =
      colorizeDepth extRed (decodedDepth sGood)
        (NuiImageResolutionToSize sGood.depthResolution).1
        (NuiImageResolutionToSize sGood.depthResolution).2 m4blank ∧
    (GetDepthDataAsArgb extRed sGood tsSeeded m4blank).2.1 =
      (GetDepthDataAsArgb extRed sGood TrackingState.initial m4blank).2.1 :=
  C7_no_delta_tracking extRed sGood tsSeeded TrackingState.initial m4blank (by decide)

/-- Claim C8: in `GetDepthDataAsArgb`, feature detection (maxCorners 20,
quality ratio 0.05, minimum separation 5) runs exactly when the stored
previous feature sequence is empty, and otherwise pyramidal optical flow
propagates the stored previous features from the stored previous frame to
the current frame; assuming the external detector honours its maxCorners
bound, the feature sequence persisted by the first call (initial static
state) has length at most 20. -/
theorem C8_feature_dispatch (ext : Externals) (s : FrameHelperState)
    (ts : TrackingState) (pImage : Mat Vec4b)
    (hp : s.colorBufferPitch ≠ 0)
    (hdet : ∀ img fs,
      ext.goodFeaturesToTrack img 20 (1 / 20 : Rat) 5 = .ok fs → fs.length ≤ 20) :
    (∀ fs, ts.prevFeatures = [] →
      ext.goodFeaturesToTrack (mkTestImage (decodedDepth s)) 20 (1 / 20 : Rat) 5 =
        .ok fs →
      (GetDepthDataAsArgb ext s ts pImage).2.2.prevFeatures = fs) ∧
    (∀ fs st er, ts.prevFeatures ≠ [] →
      ext.calcOpticalFlowPyrLK ts.prevImage (mkTestImage (decodedDepth s))
        ts.prevFeatures = .ok (fs, st, er) →
      (GetDepthDataAsArgb ext s ts pImage).2.2.prevFeatures = fs) ∧
    (ts = TrackingState.initial →
      (GetDepthDataAsArgb ext s ts pImage).2.2.prevFeatures.length ≤ 20) := by
  rw [GetDepthDataAsArgb_ok ext s ts pImage hp]
  refine ⟨?_, ?_, ?_⟩
  · intro fs hempty hok
    simp only [computeFeatures]
    rw [if_pos (by rw [hempty]; rfl), hok]
  · intro fs st er hne hok
    simp only [computeFeatures]
    rw [if_neg (fun h => hne (List.length_eq_zero.mp h)), hok]
  · intro hinit
    subst hinit
    simp only [computeFeatures]
    rw [if_pos (show TrackingState.initial.prevFeatures.length = 0 from rfl)]
    cases hgf : ext.goodFeaturesToTrack (mkTestImage (decodedDepth s))
        20 (1 / 20 : Rat) 5 with
    | ok fs =>
      simpa using hdet (mkTestImage (decodedDepth s)) fs hgf
    | error e =>
      simp [TrackingState.initial]

/-- Witness for C8: concrete first call (initial static state) with a
detector that honours its maxCorners bound. -/
theorem C8_feature_dispatch_witness :
    (∀ fs, TrackingState.initial.prevFeatures = [] →
      extZero.goodFeaturesToTrack (mkTestImage (decodedDepth sGood)) 20 (1 / 20 : Rat) 5 =
        .ok fs →
      (GetDepthDataAsArgb extZero sGood TrackingState.initial m4blank).2.2.prevFeatures = fs) ∧
    (∀ fs st er, TrackingState.initial.prevFeatures ≠ [] →
      extZero.calcOpticalFlowPyrLK TrackingState.initial.prevImage
        (mkTestImage (decodedDepth sGood)) TrackingState.initial.prevFeatures =
          .ok (fs, st, er) →
      (GetDepthDataAsArgb extZero sGood TrackingState.initial m4blank).2.2.prevFeatures = fs) ∧
    (TrackingState.initial = TrackingState.initial →
      (GetDepthDataAsArgb extZero sGood TrackingState.initial m4blank).2.2.prevFeatures.length ≤ 20) :=
  C8_feature_dispatch extZero sGood TrackingState.initial m4blank (by decide)
    (by
      intro img fs h
      have hfs : ([⟨1, 1⟩] : List CvPoint) = fs := by injection h
      rw [← hfs]
      decide)

/-- Claim C9: `VerifySize` returns `E_INVALIDARG` exactly when the matrix
dimensions differ from the resolution's canonical (width, height) and
`S_OK` exactly when they match; a matrix built with the canonical
dimensions validates, and swapped or off-by-one dimensions fail.  The
embedding is a pure function of its inputs, so no state is modified. -/
theorem C9_size_validation {α : Type} (pImage : Mat α)
    (resolution : NuiImageResolution) :
    (VerifySize pImage resolution = E_INVALIDARG ↔
      ¬(pImage.rows = (NuiImageResolutionToSize resolution).2 ∧
        pImage.cols = (NuiImageResolutionToSize resolution).1)) ∧
    (VerifySize pImage resolution = S_OK ↔
      (pImage.rows = (NuiImageResolutionToSize resolution).2 ∧
       pImage.cols = (NuiImageResolutionToSize resolution).1)) ∧
    VerifySize (Mat.mk (NuiImageResolutionToSize resolution).2
      (NuiImageResolutionToSize resolution).1 pImage.px) resolution = S_OK ∧
    VerifySize (Mat.mk (NuiImageResolutionToSize resolution).1
      (NuiImageResolutionToSize resolution).2 pImage.px) resolution = E_INVALIDARG ∧
    VerifySize (Mat.mk ((NuiImageResolutionToSize resolution).2 + 1)
      (NuiImageResolutionToSize resolution).1 pImage.px) resolution = E_INVALIDARG := by
  refine ⟨?_, ?_, ?_, ?_, ?_⟩
  · by_cases hc : pImage.rows = (NuiImageResolutionToSize resolution).2 ∧
        pImage.cols = (NuiImageResolutionToSize resolution).1
    · simp [VerifySize, hc.1, hc.2, hc, S_OK, E_INVALIDARG]
    · rw [Decidable.not_and_iff_or_not] at hc
      simp only [VerifySize, if_pos hc]
      simp only [Decidable.not_and_iff_or_not]
      tauto
  · by_cases hc : pImage.rows = (NuiImageResolutionToSize resolution).2 ∧
        pImage.cols = (NuiImageResolutionToSize resolution).1
    · simp [VerifySize, hc.1, hc.2, hc]
    · rw [Decidable.not_and_iff_or_not] at hc
      simp only [VerifySize, if_pos hc, S_OK, E_INVALIDARG]
      constructor
      · intro h
        exact absurd h (by decide)
      · intro h
        rcases hc with hc | hc
        · exact absurd h.1 hc
        · exact absurd h.2 hc
  · simp [VerifySize]
  · cases resolution <;> simp [VerifySize, NuiImageResolutionToSize]
  · simp [VerifySize]

/-- Claim C10: when the inner depth decode fails (which in this code
happens exactly when `m_colorBufferPitch` is 0, yielding
`E_NUI_FRAME_NO_DATA`), `GetDepthDataAsArgb` returns that same error code
immediately and leaves the caller's output matrix and the retained
tracking state (previous-frame snapshot, previous feature sequence and the
`currentFeatures` buffer) completely untouched. -/
theorem C10_error_is_atomic (ext : Externals) (s : FrameHelperState)
    (ts : TrackingState) (pImage : Mat Vec4b) (pDepth : Mat Nat)
    (hfail : s.colorBufferPitch = 0) :
    (GetDepthData s pDepth).1 = E_NUI_FRAME_NO_DATA ∧
    GetDepthDataAsArgb ext s ts pImage = (E_NUI_FRAME_NO_DATA, pImage, ts) := by
  constructor
  · simp [GetDepthData, hfail]
  · simp only [GetDepthDataAsArgb, GetDepthData, if_pos hfail]
    norm_num [E_NUI_FRAME_NO_DATA]

/-- Witness for C10 at a concrete call with the color pitch 0. -/
theorem C10_error_is_atomic_witness :
    (GetDepthData sColorPitch0 m16blank).1 = E_NUI_FRAME_NO_DATA ∧
    GetDepthDataAsArgb extZero sColorPitch0 tsSeeded m4blank =
      (E_NUI_FRAME_NO_DATA, m4blank, tsSeeded) :=
  C10_error_is_atomic extZero sColorPitch0 tsSeeded m4blank m16blank rfl
